import Mathlib

/-!
A shallow embedding of `docassemble/ALDocument/al_document.py`.

The interview value store (the docassemble functions `defined` and `value`)
is modelled as a partial map from variable names to Python values.  A Python
value relevant to this module is either a string (a list of characters) or a
list-like sequence over an arbitrary element type `α`; both support `len`
and Python slicing, which the module uses uniformly.
-/

/-- Python exceptions raised by the embedded code or by its collaborators, as
far as this module distinguishes them.  `keyError` is the only member of
Python's `LookupError` class that can arise here; `attributeError` records the
description of the object and the missing attribute name; `nameError` records
the unresolvable name; `emptyConcatenate` is the failure of the external
concatenation service on an empty input list (spec section 6). -/
inductive PyErr where
  | keyError : String → PyErr
  | attributeError : String → String → PyErr
  | nameError : String → PyErr
  | emptyConcatenate : PyErr
  deriving DecidableEq

/-- Whether an exception belongs to Python's `LookupError` class
(`KeyError`/`IndexError`).  `AttributeError` and `NameError` do not. -/
def PyErr.isLookupError : PyErr → Bool
  | .keyError _ => true
  | _ => false

/-- A Python value held by an interview variable: a string, or a list-like
sequence with elements of type `α`. -/
inductive PyVal (α : Type) where
  | str : List Char → PyVal α
  | lst : List α → PyVal α
  deriving DecidableEq

/-- Python `len()` on a string or sequence value. -/
def pyLen {α : Type} : PyVal α → Nat
  | .str s => s.length
  | .lst l => l.length

/-- The number of elements of `v[:t]` (equally, the number dropped by
`v[t:]`) under Python slice-index normalisation on a value of length `n`:
a negative index counts from the end and an out-of-range index clamps. -/
def sliceIdx (t : Int) (n : Nat) : Nat :=
  if t < 0 then ((n : Int) + t).toNat else min t.toNat n

/-- Python `v[:t]`. -/
def pyTake {α : Type} (t : Int) : PyVal α → PyVal α
  | .str s => .str (s.take (sliceIdx t s.length))
  | .lst l => .lst (l.take (sliceIdx t l.length))

/-- Python `v[t:]`. -/
def pyDrop {α : Type} (t : Int) : PyVal α → PyVal α
  | .str s => .str (s.drop (sliceIdx t s.length))
  | .lst l => .lst (l.drop (sliceIdx t l.length))

theorem sliceIdx_le (t : Int) (n : Nat) : sliceIdx t n ≤ n := by
  unfold sliceIdx
  split
  · omega
  · exact Nat.min_le_right _ _

theorem sliceIdx_eq_toNat (t : Int) (n : Nat) (h0 : 0 ≤ t) (h : t < (n : Int)) :
    sliceIdx t n = t.toNat := by
  unfold sliceIdx
  rw [if_neg (by omega)]
  exact Nat.min_eq_left (by omega)

theorem pyLen_pyDrop {α : Type} (t : Int) (v : PyVal α) :
    pyLen (pyDrop t v) = pyLen v - sliceIdx t (pyLen v) := by
  cases v <;> simp [pyDrop, pyLen]

theorem pyLen_pyTake {α : Type} (t : Int) (v : PyVal α) :
    pyLen (pyTake t v) = min (sliceIdx t (pyLen v)) (pyLen v) := by
  cases v <;> simp [pyTake, pyLen]

/-- The external interview value store behind docassemble's
`defined(name)` / `value(name)`: a partial map from variable names to
values.  `defined` holds exactly when the store binds the name, and `value`
then returns that binding. -/
def Store (α : Type) : Type := String → Option (PyVal α)

/-- docassemble `defined(name)` against a store. -/
def pyDefined {α : Type} (st : Store α) (n : String) : Bool := (st n).isSome

/-- `ALAddendumField` (lines 3-68): one named field with its overflow
threshold.  `field_name` names a docassemble variable in the external store;
`overflow_trigger` is the slot size (an `int` in Python, hence `Int` here;
the spec's data model takes it to be positive). -/
structure ALAddendumField where
  field_name : String
  overflow_trigger : Int
  deriving DecidableEq

/-- `ALAddendumField.value_if_defined` (lines 50-56): the store's value when
the referenced variable is defined, otherwise the empty string. -/
def ALAddendumField.value_if_defined {α : Type} (f : ALAddendumField)
    (st : Store α) : PyVal α :=
  match st f.field_name with
  | some v => v
  | none => .str []

/-- `ALAddendumField.overflow_value` (lines 19-27): the part of the value
beyond `overflow_trigger` when `len(value_if_defined()) > overflow_trigger`,
otherwise the empty string (the literal `""`, whatever the value's type). -/
def ALAddendumField.overflow_value {α : Type} (f : ALAddendumField)
    (st : Store α) : PyVal α :=
  if (pyLen (f.value_if_defined st) : Int) > f.overflow_trigger then
    pyDrop f.overflow_trigger (f.value_if_defined st)
  else .str []

/-- `ALAddendumField.safe_value` (lines 37-48): the part of the value up to
`overflow_trigger`; the `overflow_message` marker is appended only on the
string branch of the `isinstance` test, and only when the value overflowed. -/
def ALAddendumField.safe_value {α : Type} (f : ALAddendumField) (st : Store α)
    (overflow_message : List Char) : PyVal α :=
  if (pyLen (f.value_if_defined st) : Int) > f.overflow_trigger then
    match f.value_if_defined st with
    | .str s => .str (s.take (sliceIdx f.overflow_trigger s.length) ++ overflow_message)
    | .lst l => .lst (l.take (sliceIdx f.overflow_trigger l.length))
  else f.value_if_defined st

/-- A concrete store used by the witnesses: the variable `story` holds the
four-character string `abcd` and the variable `items` holds a three-element
list; every other variable is unset. -/
def demoStore : Store Unit := fun n =>
  if n = ("story") then some (.str (['a', 'b', 'c', 'd']))
  else if n = ("items") then some (.lst ([(), (), ()])) else none

/-- A field on `story` with trigger 2 (its value overflows). -/
def fieldStory : ALAddendumField := ⟨("story"), 2⟩

/-- A field on `story` with trigger 9 (its value does not overflow). -/
def fieldWide : ALAddendumField := ⟨("story"), 9⟩

/-- A field on the list-valued `items` with trigger 2 (it overflows). -/
def fieldItems : ALAddendumField := ⟨("items"), 2⟩

/-- A field whose variable is unset in `demoStore`. -/
def fieldMissing : ALAddendumField := ⟨("nothere"), 2⟩

/-- Claim C4: for a field whose full value is a string, the length of
`safe_value ""` plus the length of `overflow_value ()` equals the length of
`value_if_defined ()` — the safe portion with an empty marker concatenated
with the overflow portion reconstructs the full value. -/
theorem claim_C4_safe_plus_overflow_reconstructs_full {α : Type} (st : Store α)
    (f : ALAddendumField) (s : List Char) (h : f.value_if_defined st = .str s) :
    pyLen (f.safe_value st []) + pyLen (f.overflow_value st)
      = pyLen (f.value_if_defined st) := by
  unfold ALAddendumField.safe_value ALAddendumField.overflow_value
  rw [h]
  by_cases hc : (pyLen (PyVal.str s : PyVal α) : Int) > f.overflow_trigger
  · rw [if_pos hc, if_pos hc]
    have hle := sliceIdx_le f.overflow_trigger s.length
    simp only [pyLen, pyDrop, List.append_nil, List.length_take, List.length_drop]
    rw [Nat.min_eq_left hle]
    omega
  · rw [if_neg hc, if_neg hc]
    simp [pyLen]

theorem claim_C4_witness :
    ALAddendumField.value_if_defined fieldStory demoStore = .str (['a', 'b', 'c', 'd'])
    ∧ pyLen (ALAddendumField.safe_value fieldStory demoStore [])
        + pyLen (ALAddendumField.overflow_value fieldStory demoStore)
        = pyLen (ALAddendumField.value_if_defined fieldStory demoStore) :=
  ⟨by decide,
   claim_C4_safe_plus_overflow_reconstructs_full demoStore fieldStory
     (['a', 'b', 'c', 'd']) (by decide)⟩

/-- Claim C5: for a field with a nonnegative trigger (the spec's data model
makes the trigger a positive integer), `overflow_value ()` is non-empty iff
`len (value_if_defined ()) > overflow_trigger`, and when non-empty it is
exactly the suffix `value_if_defined ()[overflow_trigger:]`. -/
theorem claim_C5_overflow_value_iff {α : Type} (st : Store α)
    (f : ALAddendumField) (h : 0 ≤ f.overflow_trigger) :
    (pyLen (f.overflow_value st) ≠ 0
        ↔ (pyLen (f.value_if_defined st) : Int) > f.overflow_trigger)
    ∧ ((pyLen (f.value_if_defined st) : Int) > f.overflow_trigger →
        f.overflow_value st = pyDrop f.overflow_trigger (f.value_if_defined st)) := by
  constructor
  · unfold ALAddendumField.overflow_value
    by_cases hc : (pyLen (f.value_if_defined st) : Int) > f.overflow_trigger
    · rw [if_pos hc]
      have hs := sliceIdx_eq_toNat f.overflow_trigger (pyLen (f.value_if_defined st)) h hc
      rw [pyLen_pyDrop, hs]
      constructor
      · intro _; exact hc
      · intro _; omega
    · rw [if_neg hc]
      simp only [pyLen]
      constructor
      · intro hne; exact absurd rfl hne
      · intro hgt; exact absurd hgt hc
  · intro hgt
    unfold ALAddendumField.overflow_value
    rw [if_pos hgt]

theorem claim_C5_witness :
    (0 : Int) ≤ fieldStory.overflow_trigger
    ∧ (pyLen (ALAddendumField.overflow_value fieldStory demoStore) ≠ 0
        ↔ (pyLen (ALAddendumField.value_if_defined fieldStory demoStore) : Int)
            > fieldStory.overflow_trigger) :=
  ⟨by decide, (claim_C5_overflow_value_iff demoStore fieldStory (by decide)).1⟩

/-- Claim C7: `value_if_defined ()` never fails — it is a total function that
returns the store's value when the referenced variable is set and the empty
string when it is unset. -/
theorem claim_C7_value_if_defined_total {α : Type} (st : Store α)
    (f : ALAddendumField) :
    (∃ v, st f.field_name = some v ∧ f.value_if_defined st = v)
    ∨ (st f.field_name = none ∧ f.value_if_defined st = .str []) := by
  unfold ALAddendumField.value_if_defined
  cases hv : st f.field_name with
  | some v => exact Or.inl ⟨v, rfl, rfl⟩
  | none => exact Or.inr ⟨rfl, rfl⟩

/-- Claim C10: when the full value does not overflow, `overflow_value ()` is
the empty string (the string `""` even for a sequence-typed value) and
`safe_value marker` is the full value unchanged; moreover for a sequence-typed
value `safe_value` never appends the marker (its result does not depend on the
marker), so a marker can only appear on a string value that overflowed. -/
theorem claim_C10_no_overflow_no_marker {α : Type} (st : Store α)
    (f : ALAddendumField) (m : List Char) :
    ((pyLen (f.value_if_defined st) : Int) ≤ f.overflow_trigger →
      f.overflow_value st = .str []
      ∧ f.safe_value st m = f.value_if_defined st)
    ∧ (∀ l : List α, f.value_if_defined st = .lst l →
        ∀ m2 : List Char, f.safe_value st m = f.safe_value st m2) := by
  constructor
  · intro hle
    unfold ALAddendumField.overflow_value ALAddendumField.safe_value
    rw [if_neg (by omega), if_neg (by omega)]
    exact ⟨rfl, rfl⟩
  · intro l hl m2
    unfold ALAddendumField.safe_value
    rw [hl]

theorem claim_C10_witness :
    (ALAddendumField.overflow_value fieldWide demoStore = .str []
      ∧ ALAddendumField.safe_value fieldWide demoStore (['!'])
          = ALAddendumField.value_if_defined fieldWide demoStore)
    ∧ ALAddendumField.safe_value fieldItems demoStore (['!'])
        = ALAddendumField.safe_value fieldItems demoStore (['?']) :=
  ⟨(claim_C10_no_overflow_no_marker demoStore fieldWide (['!'])).1 (by decide),
   (claim_C10_no_overflow_no_marker demoStore fieldItems (['!'])).2
     ([(), (), ()]) (by decide) (['?'])⟩

/-- `ALAddendumFieldDict` (lines 70-124): an ordered mapping from field name
to field (a docassemble DAOrderedDict), with the display `style` set by init
(lines 88-89, default `overflow_only`).  Its entries are modelled as an
ordered association list. -/
structure ALAddendumFieldDict where
  elements : List (String × ALAddendumField)
  style : String
  deriving DecidableEq

/-- `ALAddendumFieldDict.defined_fields` (lines 109-117): the fields, in
insertion order, whose variable is defined; under style `overflow_only` it
further keeps only fields with a truthy (non-zero-length) overflow value. -/
def ALAddendumFieldDict.defined_fields {α : Type} (d : ALAddendumFieldDict)
    (st : Store α) (style : String) : List ALAddendumField :=
  if style = ("overflow_only") then
    (d.elements.map Prod.snd).filter
      (fun f => pyDefined st f.field_name && (pyLen (f.overflow_value st) != 0))
  else
    (d.elements.map Prod.snd).filter (fun f => pyDefined st f.field_name)

/-- `ALAddendumFieldDict.overflow` (lines 119-120). -/
def ALAddendumFieldDict.overflow {α : Type} (d : ALAddendumFieldDict)
    (st : Store α) : List ALAddendumField :=
  d.defined_fields st ("overflow_only")

/-- The result of `overflow_fields[field_name]` under docassemble's DADict
item lookup as configured by `ALAddendumFieldDict.init` (line 86 sets
`object_type` to ALAddendumField): a present key resolves to its field, while
a missing key is resolved by implicitly creating a new ALAddendumField under
that key — the framework's auto-populate behaviour that the overridden
`initializeObject` (lines 94-101, "When we create a new entry implicitly")
exists to hook, stamping `field_name`; the spec's design notes (section 9)
likewise record that the inherited base containers auto-populate missing
entries.  The implicitly created field has `field_name` equal to the key and
no `overflow_trigger` attribute yet, which the mandatory `overflow_trigger`
field of the `ALAddendumField` structure cannot represent, hence the
dedicated `created` constructor. -/
inductive GetItem where
  | found : ALAddendumField → GetItem
  | created : String → GetItem
  deriving DecidableEq

/-- Item lookup on the field dict (see `GetItem`). -/
def ALAddendumFieldDict.getItem (d : ALAddendumFieldDict) (k : String) : GetItem :=
  match List.lookup k d.elements with
  | some f => .found f
  | none => .created k

/-- `ALDocument` (lines 126-180): one logical output document.  The
docassemble DADict of attachment blocks behind `self[key]` is modelled as the
total map `attachments` (the interview defines the `final` and `preview`
renditions, and `addendum` is the attribute of line 163); `overflow_fields`
is the attribute initialised at line 154 and `default_overflow_message` the
attribute of lines 155-156. -/
structure ALDocument (β : Type) where
  filename : String
  enabled : Bool
  has_addendum : Bool
  attachments : String → β
  addendum : β
  overflow_fields : ALAddendumFieldDict
  default_overflow_message : List Char

/-- `ALDocument.overflow` (lines 170-171). -/
def ALDocument.overflow {α β : Type} (doc : ALDocument β) (st : Store α) :
    List ALAddendumField :=
  doc.overflow_fields.overflow st

/-- `ALDocument.has_overflow` (lines 167-168). -/
def ALDocument.has_overflow {α β : Type} (doc : ALDocument β) (st : Store α) : Bool :=
  decide (0 < (doc.overflow st).length)

/-- `ALDocument.as_list` (lines 161-165). -/
def ALDocument.as_list {α β : Type} (doc : ALDocument β) (st : Store α)
    (key : String) : List β :=
  if doc.has_addendum && doc.has_overflow st then [doc.attachments key, doc.addendum]
  else [doc.attachments key]

/-- `ALDocument.safe_value` (lines 173-180) called with the default
`overflow_message=None`, so the message used is `default_overflow_message`.
On a registered field it returns that field's `safe_value`.  On an
unregistered field the dict lookup implicitly creates a bare ALAddendumField
(see `ALAddendumFieldDict.getItem`), and the inner `safe_value` call then
reads the created field's missing `overflow_trigger` attribute (line 42),
raising an AttributeError-class error, not a LookupError. -/
def ALDocument.safe_value {α β : Type} (doc : ALDocument β) (st : Store α)
    (field_name : String) : Except PyErr (PyVal α) :=
  match doc.overflow_fields.getItem field_name with
  | .found f => .ok (f.safe_value st doc.default_overflow_message)
  | .created _ => .error (.attributeError ("ALAddendumField") ("overflow_trigger"))

theorem has_overflow_iff {α β : Type} (st : Store α) (doc : ALDocument β) :
    doc.has_overflow st = true ↔
      ∃ f ∈ doc.overflow_fields.elements.map Prod.snd,
        pyDefined st f.field_name = true ∧ pyLen (f.overflow_value st) ≠ 0 := by
  unfold ALDocument.has_overflow ALDocument.overflow ALAddendumFieldDict.overflow
    ALAddendumFieldDict.defined_fields
  rw [if_pos rfl]
  simp [List.length_pos, List.filter_eq_nil_iff]

/-- A document with an addendum whose single registered overflow field is
`fieldStory` (which overflows in `demoStore`); rendition handles are natural
numbers: 10 for `final`, 11 otherwise, 12 for the addendum. -/
def docAffidavit : ALDocument Nat :=
  ⟨("affidavit.pdf"), true, true, fun k => if k = ("final") then 10 else 11, 12,
   ⟨[(("story"), fieldStory)], ("overflow_only")⟩, ['.', '.', '.']⟩

/-- A document with `has_addendum` false and no registered fields. -/
def docBare : ALDocument Nat :=
  ⟨("bare.pdf"), true, false, fun _ => 20, 21, ⟨[], ("overflow_only")⟩, []⟩

/-- Claim C2: `as_list key` is the pair [main rendition at key, addendum]
when `has_addendum` holds and some registered field is defined and
overflowing, and the singleton [main rendition at key] otherwise; in
particular with `has_addendum` false it is a singleton for every store. -/
theorem claim_C2_combined_output {α β : Type} (st : Store α)
    (doc : ALDocument β) (key : String) :
    (doc.has_addendum = false → doc.as_list st key = [doc.attachments key])
    ∧ (doc.has_addendum = true →
        ((∃ f ∈ doc.overflow_fields.elements.map Prod.snd,
            pyDefined st f.field_name = true ∧ pyLen (f.overflow_value st) ≠ 0) →
          doc.as_list st key = [doc.attachments key, doc.addendum])
        ∧ (¬ (∃ f ∈ doc.overflow_fields.elements.map Prod.snd,
              pyDefined st f.field_name = true ∧ pyLen (f.overflow_value st) ≠ 0) →
          doc.as_list st key = [doc.attachments key])) := by
  refine ⟨?_, fun hadd => ⟨?_, ?_⟩⟩
  · intro h
    unfold ALDocument.as_list
    rw [h]
    simp
  · intro hex
    unfold ALDocument.as_list
    rw [hadd, Bool.true_and, if_pos ((has_overflow_iff st doc).2 hex)]
  · intro hno
    unfold ALDocument.as_list
    rw [hadd, Bool.true_and,
      if_neg (fun h => hno ((has_overflow_iff st doc).1 h))]

theorem claim_C2_witness :
    ALDocument.as_list docAffidavit demoStore ("final") = [10, 12]
    ∧ ALDocument.as_list docBare demoStore ("final") = [20] :=
  ⟨((claim_C2_combined_output demoStore docAffidavit ("final")).2 rfl).1
      ⟨fieldStory, by decide, by decide, by decide⟩,
   (claim_C2_combined_output demoStore docBare ("final")).1 rfl⟩

/-- Claim C3 counterexample: looking up the never-registered field name
`typo` through `ALDocument.safe_value` does not raise a LookupError-class
error — the dict auto-populates the missing key and the failure is the
AttributeError for the created field's missing `overflow_trigger`. -/
theorem claim_C3_counterexample :
    ALDocument.safe_value docAffidavit demoStore ("typo")
      = .error (.attributeError ("ALAddendumField") ("overflow_trigger"))
    ∧ PyErr.isLookupError
        (.attributeError ("ALAddendumField") ("overflow_trigger")) = false :=
  ⟨rfl, rfl⟩

/-- Claim C3 as amended: for a registered field name, `ALDocument.safe_value`
returns that field's `safe_value` (with the document's default overflow
message); for a never-registered name it fails — but with an
AttributeError-class error on the implicitly created field's missing
`overflow_trigger` attribute, never with a LookupError-class error. -/
theorem claim_C3_amended {α β : Type} (st : Store α) (doc : ALDocument β)
    (k : String) :
    (∀ f, List.lookup k doc.overflow_fields.elements = some f →
        doc.safe_value st k = .ok (f.safe_value st doc.default_overflow_message))
    ∧ (List.lookup k doc.overflow_fields.elements = none →
        doc.safe_value st k
          = .error (.attributeError ("ALAddendumField") ("overflow_trigger"))
        ∧ ∀ e, doc.safe_value st k = .error e → e.isLookupError = false) := by
  constructor
  · intro f hf
    unfold ALDocument.safe_value ALAddendumFieldDict.getItem
    rw [hf]
  · intro hn
    have h1 : doc.safe_value st k
        = .error (.attributeError ("ALAddendumField") ("overflow_trigger")) := by
      unfold ALDocument.safe_value ALAddendumFieldDict.getItem
      rw [hn]
    refine ⟨h1, ?_⟩
    intro e he
    rw [h1] at he
    injection he with h2
    rw [← h2]
    rfl

theorem claim_C3_amended_witness :
    ALDocument.safe_value docAffidavit demoStore ("story")
      = .ok (ALAddendumField.safe_value fieldStory demoStore
          docAffidavit.default_overflow_message)
    ∧ ALDocument.safe_value docAffidavit demoStore ("nosuchfield")
      = .error (.attributeError ("ALAddendumField") ("overflow_trigger")) :=
  ⟨(claim_C3_amended demoStore docAffidavit ("story")).1 fieldStory (by decide),
   ((claim_C3_amended demoStore docAffidavit ("nosuchfield")).2 (by decide)).1⟩

/-- The external concatenation service `pdf_concatenate` (spec section 6):
deterministic, opaque to this module, and failing on an empty input list.
The merged artifact is modelled as the pair of the ordered input list and the
output filename. -/
def pdf_concatenate {β : Type} (files : List β) (filename : String) :
    Except PyErr (List β × String) :=
  if files.isEmpty then .error .emptyConcatenate else .ok (files, filename)

/-- A child of an `ALDocumentBundle` (lines 182-239): either an ALDocument or
a nested ALDocumentBundle (the bundle case carries its `filename`, its
`enabled` attribute and its ordered children). -/
inductive ALNode (β : Type) where
  | doc : ALDocument β → ALNode β
  | bundle : String → Bool → List (ALNode β) → ALNode β

/-- `ALDocumentBundle.as_flat_list` (lines 215-230), as a function of the
bundle's ordered children.  A Document child is included (via its `as_list`)
only when its `enabled` flag is true (lines 227-228).  For a child that is
itself an ALDocumentBundle, line 226 invokes `document.as_list(key=key)`:
this module defines `as_list` only on ALDocument (line 161) — neither
ALDocumentBundle nor its docassemble DAList base provides such a method — so
the attribute lookup on the child fails with an AttributeError-class error
and no flat list is produced. -/
def ALDocumentBundle.as_flat_list {α β : Type} (st : Store α) (key : String) :
    List (ALNode β) → Except PyErr (List β)
  | [] => .ok []
  | (.bundle _ _ _) :: _ => .error (.attributeError ("ALDocumentBundle") ("as_list"))
  | (.doc d) :: rest =>
    if d.enabled then do
      let tail ← ALDocumentBundle.as_flat_list st key rest
      pure (d.as_list st key ++ tail)
    else ALDocumentBundle.as_flat_list st key rest

/-- `as_pdf` on a bundle child: `ALDocument.as_pdf` (lines 158-159)
concatenates the document's `as_list`; `ALDocumentBundle.as_pdf`
(lines 209-210) concatenates the bundle's `as_flat_list`. -/
def ALNode.as_pdf {α β : Type} (st : Store α) (key : String) :
    ALNode β → Except PyErr (List β × String)
  | .doc d => pdf_concatenate (d.as_list st key) d.filename
  | .bundle fn _ children => do
    let flat ← ALDocumentBundle.as_flat_list st key children
    pdf_concatenate flat fn

/-- `ALDocumentBundle.as_pdf_list` (lines 232-236), as a function of the
bundle's ordered children: one `as_pdf` artifact per direct child, with no
filtering on the child's `enabled` flag. -/
def ALDocumentBundle.as_pdf_list {α β : Type} (st : Store α) (key : String)
    (children : List (ALNode β)) : Except PyErr (List (List β × String)) :=
  children.mapM (ALNode.as_pdf st key)

/-- A disabled document with no addendum; its sole rendition handle is 30. -/
def docDisabled : ALDocument Nat :=
  ⟨("motion.pdf"), false, false, fun _ => 30, 31, ⟨[], ("overflow_only")⟩, []⟩

/-- Claim C1, settled against the code: flattening a bundle that contains a
nested sub-bundle does not append the sub-bundle's flattened enabled items —
it fails with the AttributeError for the missing `as_list` method on
ALDocumentBundle (the claimed recursion is unreachable); for a bundle whose
children are all Documents the claimed behaviour does hold, as the second
conjunct shows on a concrete bundle: the enabled overflowing document
contributes its two renditions and the disabled document contributes
nothing. -/
theorem claim_C1_flatten_fails_on_nested_bundle :
    ALDocumentBundle.as_flat_list demoStore ("final")
        ([ALNode.bundle ("sub.pdf") true []] : List (ALNode Nat))
      = .error (.attributeError ("ALDocumentBundle") ("as_list"))
    ∧ ALDocumentBundle.as_flat_list demoStore ("final")
        ([ALNode.doc docAffidavit, ALNode.doc docDisabled])
      = .ok ([10, 12]) :=
  ⟨rfl, rfl⟩

/-- Claim C6, settled against the code: `as_pdf_list` does yield one
unfiltered artifact per direct Document child (second conjunct: the disabled
document still occupies a slot), but it is not length-preserving "regardless
of nesting depth" — a direct child that is a bundle containing a bundle makes
the whole call fail with the AttributeError for the missing `as_list`,
instead of producing a one-element list. -/
theorem claim_C6_pdf_list_fails_on_nested_depth :
    ALDocumentBundle.as_pdf_list demoStore ("final")
        ([ALNode.bundle ("mid.pdf") true [ALNode.bundle ("inner.pdf") true []]]
          : List (ALNode Nat))
      = .error (.attributeError ("ALDocumentBundle") ("as_list"))
    ∧ ALDocumentBundle.as_pdf_list demoStore ("final")
        ([ALNode.doc docAffidavit, ALNode.doc docDisabled])
      = .ok ([([10, 12], ("affidavit.pdf")), ([30], ("motion.pdf"))]) :=
  ⟨rfl, rfl⟩

/-- The names bound at module scope in al_document.py: the from-import of
line 1 and the five class statements.  Python resolves a bare name used
inside a method body against these (no relevant builtin is involved here);
a name bound nowhere raises NameError. -/
def moduleGlobals : List String :=
  [("DADict"), ("DAList"), ("DAObject"), ("DAFile"), ("DAFileCollection"),
   ("DAFileList"), ("defined"), ("value"), ("pdf_concatenate"),
   ("DAOrderedDict"), ("ALAddendumField"), ("ALAddendumFieldDict"),
   ("ALDocument"), ("ALDocumentBundle"), ("ALDocumentBundleDict")]

/-- Resolution of a bare global name inside this module. -/
def lookupGlobal (n : String) : Except PyErr Unit :=
  if n ∈ moduleGlobals then .ok () else .error (.nameError n)

/-- `ALAddendumFieldDict.initializeObject` (lines 94-101): delegates to the
base-class initializeObject, which creates a fresh ALAddendumField entry
under the key, then stamps the entry's `field_name` with the key — and ends
without a return statement, so the method's Python value is None, modelled as
the `none` second component.  The fresh entry's `overflow_trigger` attribute
is not yet set at this point; the placeholder 0 recorded for it here is never
read, because the only caller that goes on to use the entry (`from_list`,
line 105) crashes first on the None return value. -/
def ALAddendumFieldDict.initializeObject (d : ALAddendumFieldDict)
    (key : String) : ALAddendumFieldDict × Option ALAddendumField :=
  (⟨d.elements ++ [(key, ⟨key, 0⟩)], d.style⟩, none)

/-- `ALAddendumFieldDict.from_list` (lines 103-107), over records of
(field_name, overflow_trigger).  Line 105 binds new_field to the value of
the initializeObject call, which is always None since the override has no
return statement; line 106 then assigns `.field_name` on None and raises
AttributeError.  The `some` branch below is unreachable; it is kept so the
loop shape matches the source. -/
def ALAddendumFieldDict.from_list (d : ALAddendumFieldDict)
    (data : List (String × Int)) : Except PyErr ALAddendumFieldDict :=
  match data with
  | [] => .ok d
  | entry :: rest =>
    match (d.initializeObject entry.1).2 with
    | none => .error (.attributeError ("NoneType") ("field_name"))
    | some _ => ALAddendumFieldDict.from_list (d.initializeObject entry.1).1 rest

/-- Lines 90-92 of `ALAddendumFieldDict.init`: when the object carries a
`data` attribute, the code calls `self.from_list(data)` where `data` is a
bare name — not `self.data`; neither the method body nor the module binds a
name `data`, so evaluating the argument raises NameError before `from_list`
is entered (the `ok` branch is unreachable). -/
def ALAddendumFieldDict.init_data_load (d : ALAddendumFieldDict) :
    Except PyErr ALAddendumFieldDict :=
  match lookupGlobal ("data") with
  | .error e => .error e
  | .ok _ => d.from_list []

/-- Claim C8, settled against the code: bulk-loading a one-record list does
not register a field — `from_list` crashes with AttributeError on the None
returned by the overridden initializeObject, and the init-time load of a
`data` attribute crashes earlier still with NameError on the bare name
`data`. -/
theorem claim_C8_bulk_load_fails :
    ALAddendumFieldDict.from_list (⟨[], ("overflow_only")⟩ : ALAddendumFieldDict)
        ([(("recipients"), 3)])
      = .error (.attributeError ("NoneType") ("field_name"))
    ∧ ALAddendumFieldDict.init_data_load
        (⟨[], ("overflow_only")⟩ : ALAddendumFieldDict)
      = .error (.nameError ("data")) :=
  ⟨rfl, rfl⟩

/-- `ALDocumentBundleDict.init` (lines 251-259): its first statement,
`super(ALBundleList, self).init(*pargs, **kwargs)` (line 252), evaluates the
bare global name ALBundleList, and line 255 would evaluate ALBundle; the
module defines neither name, so construction raises NameError at line 252
and none of the remaining statements run. -/
def ALDocumentBundleDict.init : Except PyErr Unit := do
  let _ ← lookupGlobal ("ALBundleList")
  let _ ← lookupGlobal ("ALBundle")
  pure ()

/-- Claim C9, settled against the code: constructing an ALDocumentBundleDict
never succeeds — init raises NameError on the undefined name ALBundleList —
so no bundle-of-bundles dictionary on which to call preview or as_attachment
can exist. -/
theorem claim_C9_bundle_dict_init_fails :
    ALDocumentBundleDict.init = .error (.nameError ("ALBundleList")) :=
  rfl
